import Mathlib

/-!
# pyPraat: a shallow embedding of the two text parsers

This file embeds the two line-oriented parsers of the pyPraat repository:

* `TextGrid.parse` (src/TextGrid.py), embedded as `PyPraat.tgParse`;
* `Formants.from_praat_text` (src/get_formants.py), embedded as
  `PyPraat.from_praat_text`, together with the two export entry points
  `to_matlab_literal` and `to_matlab_mat`.

Modelling conventions:

* A file is a `List String` of its lines, without the trailing newline of
  each line (every operation the source applies — `startswith`, `strip`,
  `replace`, `re.match`, `float`, `int` — is insensitive to that trailing
  newline, so dropping it is faithful).  TextGrid.py is Python-2 era code
  (it compares the `rb` byte lines against `str` literals), so its lines
  are modelled as text exactly like the Python 2 `str` they are.
* Python floats are modelled as exact rationals `ℚ`: the parsers only
  store and linearly combine the parsed values, and all inputs used in the
  concrete theorems below are exactly representable.  The `numpy.nan`
  sentinel that `from_praat_text` preloads into the per-frame arrays is
  modelled as `none : Option ℚ`, a parsed number `q` as `some q`; the
  source never computes with these values, so the encoding is faithful.
* Python exceptions become `Except PErr`: `ValueError` (including the two
  header `raise ValueError`s with their message strings), the generic
  `raise Exception` of TextGrid.py, `IndexError` from list indexing,
  `TypeError` from `None + 1`, and `AttributeError` from
  `None.group(1)` after a failed regex scan.
* `int(str)` / `float(str)` are modelled on the ASCII decimal forms
  (optional sign, digits, fraction, exponent); the exotic CPython extras
  (`inf`, `nan`, numeric underscores, non-ASCII digits) are not modelled
  and appear in no theorem below.
* The two scanning loops of `from_praat_text` advance a strictly
  increasing cursor in the source (no line can match both the pattern that
  ends an iteration and the one that starts the next), so they terminate;
  the embedding gives them `lines.length + 1` units of fuel, enough for
  every terminating run, and flags the unreachable exhaustion case with
  the distinct error `PErr.fuel`.
-/

namespace PyPraat

/-- The Python exceptions the two parsers can raise. -/
inductive PErr where
  | valueError (msg : String)
  | exception (msg : String)
  | indexError
  | typeError
  | attributeError
  | fuel
deriving DecidableEq, Repr

/-- Python whitespace as stripped by `str.strip()` and matched by `\s`
(ASCII range). -/
def isPySpace (c : Char) : Bool :=
  c == ' ' || c == '\t' || c == '\n' || c == '\r' || c == '\x0b' || c == '\x0c'

/-- `str.strip()`. -/
def pyStrip (s : String) : String :=
  String.mk (((s.toList.dropWhile isPySpace).reverse.dropWhile isPySpace).reverse)

/-- `str.strip('"')`: removes ALL leading and trailing quote characters. -/
def stripQuotes (s : String) : String :=
  String.mk (((s.toList.dropWhile (· == '"')).reverse.dropWhile (· == '"')).reverse)

/-- Greedy run of ASCII digits: value, number of digits consumed, rest. -/
def takeDigits : List Char → Nat → Nat → Nat × Nat × List Char
  | c :: r, v, cnt =>
      if c.isDigit then takeDigits r (10 * v + (c.toNat - 48)) (cnt + 1)
      else (v, cnt, c :: r)
  | [], v, cnt => (v, cnt, [])

/-- `[0-9]+` at the head of the list: value, digit count, rest. -/
def parseDigits (cs : List Char) : Option (Nat × Nat × List Char) :=
  match cs with
  | c :: _ => if c.isDigit then some (takeDigits cs 0 0) else none
  | [] => none

/-- All characters are digits and there is at least one: the value. -/
def digitsOnly (cs : List Char) : Option Nat :=
  match parseDigits cs with
  | some (v, _, []) => some v
  | _ => none

/-- Python `int(s)` on ASCII input: optional surrounding whitespace,
optional sign, a non-empty digit run and nothing else. -/
def pyInt (s : String) : Option ℤ :=
  let cs := ((s.toList.dropWhile isPySpace).reverse.dropWhile isPySpace).reverse
  match cs with
  | '-' :: r => (digitsOnly r).map (fun n => -(n : ℤ))
  | '+' :: r => (digitsOnly r).map (fun n => (n : ℤ))
  | r => (digitsOnly r).map (fun n => (n : ℤ))

/-- Exponent tail of a Python float literal: sign and a digit run that must
consume the whole rest of the string. -/
def expFull (m : ℚ) (r : List Char) : Option ℚ :=
  match r with
  | '-' :: r2 => (digitsOnly r2).map (fun e => m / (10 : ℚ) ^ e)
  | '+' :: r2 => (digitsOnly r2).map (fun e => m * (10 : ℚ) ^ e)
  | _ => (digitsOnly r).map (fun e => m * (10 : ℚ) ^ e)

/-- Unsigned part of a Python float literal (`digits[.digits]`, `.digits`,
`digits.`), then an optional `e`/`E` exponent; must consume everything. -/
def pyFloatCore (cs : List Char) : Option ℚ :=
  let mr : Option ℚ × List Char :=
    match parseDigits cs with
    | some (ip, _, r1) =>
        match r1 with
        | '.' :: r =>
            (match parseDigits r with
             | some (fp, k, rr) => (some ((ip : ℚ) + (fp : ℚ) / (10 : ℚ) ^ k), rr)
             | none => (some ((ip : ℚ)), r))
        | _ => (some ((ip : ℚ)), r1)
    | none =>
        match cs with
        | '.' :: r =>
            (match parseDigits r with
             | some (fp, k, rr) => (some ((fp : ℚ) / (10 : ℚ) ^ k), rr)
             | none => (none, cs))
        | _ => (none, cs)
  match mr with
  | (none, _) => none
  | (some m, rest) =>
      match rest with
      | [] => some m
      | 'e' :: r => expFull m r
      | 'E' :: r => expFull m r
      | _ => none

/-- Python `float(s)` on finite ASCII decimal literals. -/
def pyFloat (s : String) : Option ℚ :=
  match (pyStrip s).toList with
  | '-' :: r => (pyFloatCore r).map Neg.neg
  | '+' :: r => pyFloatCore r
  | r => pyFloatCore r

/-- Python list read `l[i]` for a non-negative index. -/
def pyGet {α : Type} (l : List α) (i : Nat) : Except PErr α :=
  if h : i < l.length then .ok (l.get ⟨i, h⟩) else .error .indexError

/-- Python list write `l[i] = v`: negative indices wrap from the end,
anything outside `[-len, len)` raises `IndexError`. -/
def pySet {α : Type} (l : List α) (i : ℤ) (v : α) : Except PErr (List α) :=
  if i < -(l.length : ℤ) ∨ (l.length : ℤ) ≤ i then .error .indexError
  else if i < 0 then .ok (l.set (i + l.length).toNat v)
  else .ok (l.set i.toNat v)

/-- Drop an exact literal from the head of the list (`re.match` of a
literal part of a pattern). -/
def dropLit : List Char → List Char → Option (List Char)
  | [], cs => some cs
  | p :: ps, c :: cs => if c == p then dropLit ps cs else none
  | _ :: _, [] => none

/-- Python `s.startswith(pre)`. -/
def pyStartsWith (s pre : String) : Bool :=
  (dropLit pre.toList s.toList).isSome

/-- One pass of Python `str.replace(old, new)` over the remaining
characters: replace every non-overlapping occurrence, left to right.
`old` is non-empty at every use site, so each step consumes at least one
character and the fuel — initialised to the character count — never runs
out (the `0` branch is unreachable). -/
def pyReplaceA (p r : List Char) : Nat → List Char → List Char
  | _, [] => []
  | 0, cs => cs
  | fuel + 1, c :: cs =>
      match dropLit p (c :: cs) with
      | some rest => r ++ pyReplaceA p r fuel rest
      | none => c :: pyReplaceA p r fuel cs

/-- Python `s.replace(old, new)` (for non-empty `old`). -/
def pyReplace (s old new : String) : String :=
  String.mk (pyReplaceA old.toList new.toList s.toList.length s.toList)

/-- Whether `sub` occurs as a contiguous substring of `s` (Python
`sub in s`). -/
def containsSub (sub s : String) : Bool :=
  go sub.toList s.toList
where
  go (p : List Char) : List Char → Bool
    | [] => (dropLit p []).isSome
    | c :: cs => (dropLit p (c :: cs)).isSome || go p cs

/-- The scanning core of both parsers (`_find_line` / `findLineSW`):
enumerate the line suffix `f[i:]`, return the first index whose line the
matcher accepts together with the captured value. -/
def findFromA {α : Type} (p : String → Option α) : List String → Nat → Option (Nat × α)
  | [], _ => none
  | l :: rest, i =>
      match p l with
      | some a => some (i, a)
      | none => findFromA p rest (i + 1)

/-- First index `k ≥ i` whose line the matcher accepts (the source scans
`range(i, n)` / `content[start:end]`). -/
def findFrom {α : Type} (f : List String) (p : String → Option α) (i : Nat) :
    Option (Nat × α) :=
  findFromA p (f.drop i) i

/-! ## TextGrid.py -/

/-- One interval of a TextGrid tier: the dict
`{'xmin': ..., 'xmax': ..., 'text': ...}` built by `TextGrid.parse`. -/
structure TGInterval where
  xmin : ℚ
  xmax : ℚ
  text : String
deriving DecidableEq, Repr

/-- The state `TextGrid.parse` leaves behind: `self.size` and
`self.intervals` (one list of interval dicts per tier). -/
structure TGData where
  size : ℤ
  intervals : List (List TGInterval)
deriving DecidableEq, Repr

/-- `self.findLineSW(line, start)`: first line at index `≥ start` that
`startswith` the given text, returned with its index. -/
def findLineSW (content : List String) (pre : String) (start : Nat) :
    Option (Nat × String) :=
  findFrom content (fun l => if pyStartsWith l pre then some l else none) start

/-- The compiled pattern `reIntervals = re.compile(r' +intervals \[[0-9]+\]:')`
applied with `re.match` (so: a prefix match). -/
def matchIntervals (line : String) : Bool :=
  match line.toList with
  | ' ' :: rest =>
      match dropLit "intervals [".toList (rest.dropWhile (· == ' ')) with
      | some r2 =>
          (match parseDigits r2 with
           | some (_, _, ']' :: ':' :: _) => true
           | _ => false)
      | none => false
  | _ => false

/-- The `item [j]:` search loop of `TextGrid.parse` (lines 27-30): for
`j = 1..size`, find `'    item [%d]:' % (j+1)` strictly after the previous
hit.  A miss makes the source bind `i = None`, and the next use of `i + 1`
(or `idx[j] + 1` for the last tier) raises `TypeError`. -/
def itemLoop (content : List String) : Nat → Nat → Nat → Except PErr (List Nat)
  | 0, _, _ => .ok []
  | k + 1, j, i =>
      match findLineSW content ("    item [" ++ toString (j + 1) ++ "]:") (i + 1) with
      | none => .error .typeError
      | some (pos, _) =>
          match itemLoop content k (j + 1) pos with
          | .error e => .error e
          | .ok rest => .ok (pos :: rest)

/-- `idx.append(len(self.content))` and
`itemRanges.append((idx[j]+1, idx[j+1]))` (lines 31-34). -/
def mkRanges : List Nat → Nat → List (Nat × Nat)
  | [], _ => []
  | a :: rest, len => (a + 1, rest.headD len) :: mkRanges rest len

/-- The interval scan of one tier (lines 42-53): walk the tier's line range
(`while i1 < i2`); a line matching `reIntervals` consumes the three
following lines as `xmin`, `xmax`, `text` (the reads are NOT bounded by
the tier range or the file length — Python raises `IndexError` past the
end) and advances by 4, any other line advances by 1.  The cursor gains at
least 1 per iteration, so fuel initialised to `i2 - i1` never runs out:
when it reaches `0` the loop condition `i1 < i2` has already failed. -/
def scanTierA (content : List String) (i2 : Nat) :
    Nat → Nat → List TGInterval → Except PErr (List TGInterval)
  | 0, _, acc => .ok acc
  | fuel + 1, i1, acc =>
    if i1 < i2 then
      match pyGet content i1 with
      | .error e => .error e
      | .ok l =>
        if matchIntervals l then
          match pyGet content (i1 + 1) with
          | .error e => .error e
          | .ok l1 =>
            match pyFloat (pyReplace (pyStrip l1) "xmin = " "") with
            | none => .error (.valueError "could not convert string to float")
            | some xm =>
              match pyGet content (i1 + 2) with
              | .error e => .error e
              | .ok l2 =>
                match pyFloat (pyReplace (pyStrip l2) "xmax = " "") with
                | none => .error (.valueError "could not convert string to float")
                | some xM =>
                  match pyGet content (i1 + 3) with
                  | .error e => .error e
                  | .ok l3 =>
                    scanTierA content i2 fuel (i1 + 4)
                      (acc ++ [⟨xm, xM, stripQuotes (pyReplace (pyStrip l3) "text = " "")⟩])
        else scanTierA content i2 fuel (i1 + 1) acc
    else .ok acc

/-- The interval scan of one tier, entered at the range `(i1, i2)` the
source computed (lines 40-41). -/
def scanTier (content : List String) (i2 : Nat) (i1 : Nat)
    (acc : List TGInterval) : Except PErr (List TGInterval) :=
  scanTierA content i2 (i2 - i1) i1 acc

/-- The per-tier loop of lines 37-53. -/
def tiersLoop (content : List String) :
    List (Nat × Nat) → Except PErr (List (List TGInterval))
  | [] => .ok []
  | (a, b) :: rest =>
      match scanTier content b a [] with
      | .error e => .error e
      | .ok t =>
          match tiersLoop content rest with
          | .error e => .error e
          | .ok ts => .ok (t :: ts)

/-- `TextGrid.parse` (src/TextGrid.py lines 14-53).  `content` is the list
of lines of the file.  The message strings of the size `Exception` and of
the `int`/`float` `ValueError`s are abbreviated stand-ins for CPython's
wording (no claim inspects them); the header `Exception` message and every
error KIND are exactly the source's. -/
def tgParse (content : List String) : Except PErr TGData :=
  match findLineSW content "Object class" 0 with
  | none => .error (.exception "Not a valid TextGrid file")
  | some (_, l) =>
    if pyStrip l = "Object class = \"TextGrid\"" then
      match findLineSW content "size = " 0 with
      | none => .error (.exception "Size cannot be determined...")
      | some (iSz, lSz) =>
        match pyInt (pyReplace (pyStrip lSz) "size = " "") with
        | none => .error (.valueError "invalid literal for int() with base 10")
        | some size =>
          match itemLoop content size.toNat 0 iSz with
          | .error e => .error e
          | .ok idxs =>
            match tiersLoop content (mkRanges idxs content.length) with
            | .error e => .error e
            | .ok ts => .ok ⟨size, ts⟩
    else .error (.exception "Not a valid TextGrid file")

/-! ## get_formants.py -/

/-- An apostrophe character, used in the literal error messages of
`Formants.from_praat_text`. -/
def apos : String := String.singleton (Char.ofNat 39)

/-- The pattern `r'%s\s*=\s*([0-9]+(?:\.[0-9]+)?(?:e[+-]?[0-9]+)?)' % keyword`
applied with `re.match`, composed with the `float(...)` of the captured
group (the group always parses).  Used for the six scalar header fields and
the per-frame `intensity`, `frequency` and `bandwidth` fields. -/
def matchField (kw : String) (line : String) : Option ℚ :=
  match dropLit kw.toList line.toList with
  | none => none
  | some r =>
    match r.dropWhile isPySpace with
    | '=' :: r2 =>
      (match parseDigits (r2.dropWhile isPySpace) with
       | none => none
       | some (ip, _, r3) =>
         let mr : ℚ × List Char :=
           match r3 with
           | '.' :: r4 =>
               (match parseDigits r4 with
                | some (fp, k, rr) => ((ip : ℚ) + (fp : ℚ) / (10 : ℚ) ^ k, rr)
                | none => ((ip : ℚ), r3))
           | _ => ((ip : ℚ), r3)
         some (match mr.2 with
           | 'e' :: '+' :: r5 =>
               (match parseDigits r5 with
                | some (ex, _, _) => mr.1 * (10 : ℚ) ^ ex
                | none => mr.1)
           | 'e' :: '-' :: r5 =>
               (match parseDigits r5 with
                | some (ex, _, _) => mr.1 / (10 : ℚ) ^ ex
                | none => mr.1)
           | 'e' :: r5 =>
               (match parseDigits r5 with
                | some (ex, _, _) => mr.1 * (10 : ℚ) ^ ex
                | none => mr.1)
           | _ => mr.1))
    | _ => none

/-- The pattern `r'<kw>\s*\[([0-9]+)\]:'` applied with `re.match`:
captures the bracketed index. -/
def matchIdxBracket (kw : String) (line : String) : Option Nat :=
  match dropLit kw.toList line.toList with
  | none => none
  | some r =>
    match r.dropWhile isPySpace with
    | '[' :: r2 =>
      (match parseDigits r2 with
       | some (v, _, ']' :: ':' :: _) => some v
       | _ => none)
    | _ => none

/-- The pattern `r'<kw>\s*\[\s*\]:'` applied with `re.match`. -/
def matchArrBracket (kw : String) (line : String) : Option Unit :=
  match dropLit kw.toList line.toList with
  | none => none
  | some r =>
    match r.dropWhile isPySpace with
    | '[' :: r2 =>
      (match r2.dropWhile isPySpace with
       | ']' :: ':' :: _ => some ()
       | _ => none)
    | _ => none

def matchFramesIdx (line : String) : Option Nat := matchIdxBracket "frames" line

def matchFormantIdx (line : String) : Option Nat := matchIdxBracket "formant" line

/-- Python `int()` applied to an already parsed float: truncation toward
zero (the regex above only produces non-negative values, where this is the
floor). -/
def qTrunc (q : ℚ) : ℤ := if q < 0 then -((-q).floor) else q.floor

/-- The accumulated per-frame lists of `self.data`: `t`, the captured
`frame = int(match.group(1)) - 1` values in scan order, `intensity`,
`formants` and `bandwidths`. -/
structure FrameAcc where
  t : List ℚ
  fidx : List ℤ
  intens : List ℚ
  fms : List (List (Option ℚ))
  bws : List (List (Option ℚ))
deriving DecidableEq, Repr

/-- The parsed report: the scalar entries of `self.data` plus the
per-frame lists.  `frameIdx` records the captured frame indices (the
source's `frame` variable, line 172) in scan order. -/
structure FmtData where
  xmin : ℚ
  xmax : ℚ
  nx : ℤ
  dx : ℚ
  x1 : ℚ
  maxn : ℤ
  t : List ℚ
  frameIdx : List ℤ
  intensity : List ℚ
  formants : List (List (Option ℚ))
  bandwidths : List (List (Option ℚ))
deriving DecidableEq, Repr

/-- A group-reading `_find_line` call: on a failed scan the source then
evaluates `self.last_match.group(1)` with `last_match = None` (every such
call scans a non-empty line range whose last line did not match), which
raises `AttributeError`. -/
def findField (f : List String) (kw : String) (i : Nat) : Except PErr (Nat × ℚ) :=
  match findFrom f (matchField kw) i with
  | some r => .ok r
  | none => .error .attributeError

/-- The six scalar searches of lines 159-161: each scan starts at the line
of the previous hit, the first at line 2. -/
def scanScalars (f : List String) : Except PErr (ℚ × ℚ × ℚ × ℚ × ℚ × ℚ × Nat) := do
  let (i1, xm) ← findField f "xmin" 2
  let (i2, xM) ← findField f "xmax" i1
  let (i3, nxq) ← findField f "nx" i2
  let (i4, dxq) ← findField f "dx" i3
  let (i5, x1q) ← findField f "x1" i4
  let (i6, mnq) ← findField f "maxnFormants" i5
  return (xm, xM, nxq, dxq, x1q, mnq, i6)

/-- The inner `formant [i]:` loop (lines 192-211).  Returns the filled
arrays and the final cursor.  The cursor strictly increases every
iteration, so `f.length + 1` fuel never runs out on the source's inputs;
exhaustion is flagged as the (unreachable) `PErr.fuel`. -/
def formantLoop (f : List String) (nextF : Nat) :
    Nat → Nat → List (Option ℚ) → List (Option ℚ) →
    Except PErr (List (Option ℚ) × List (Option ℚ) × Nat)
  | 0, _, _, _ => .error .fuel
  | fuel + 1, i, fs, bs =>
    match findFrom f matchFormantIdx i with
    | none => .ok (fs, bs, i)
    | some (iFo, idxN) =>
      if nextF < iFo then .ok (fs, bs, nextF)
      else
        match findField f "frequency" iFo with
        | .error e => .error e
        | .ok (iFr, frq) =>
          match pySet fs ((idxN : ℤ) - 1) (some frq) with
          | .error e => .error e
          | .ok fs2 =>
            match findField f "bandwidth" iFr with
            | .error e => .error e
            | .ok (iBw, bw) =>
              match pySet bs ((idxN : ℤ) - 1) (some bw) with
              | .error e => .error e
              | .ok bs2 => formantLoop f nextF fuel iBw fs2 bs2

/-- The outer `frames [i]:` loop (lines 171-214). -/
def frameLoop (f : List String) (dxq x1q : ℚ) (maxn : ℤ) :
    Nat → Nat → FrameAcc → Except PErr FrameAcc
  | 0, _, _ => .error .fuel
  | fuel + 1, i, acc =>
    match findFrom f matchFramesIdx i with
    | none => .ok acc
    | some (iF, idxN) =>
      let fr : ℤ := (idxN : ℤ) - 1
      match findField f "intensity" iF with
      | .error e => .error e
      | .ok (iI, inten) =>
        let nextF : Nat :=
          match findFrom f matchFramesIdx (iI + 1) with
          | some (k, _) => k
          | none => f.length
        let iS : Nat :=
          match findFrom f (matchArrBracket "formant") iI with
          | some (k, _) => k
          | none => iI
        match formantLoop f nextF (f.length + 1) iS
            (List.replicate maxn.toNat none) (List.replicate maxn.toNat none) with
        | .error e => .error e
        | .ok (fs, bs, iEnd) =>
          frameLoop f dxq x1q maxn fuel iEnd
            ⟨acc.t ++ [x1q + (fr : ℚ) * dxq], acc.fidx ++ [fr],
             acc.intens ++ [inten], acc.fms ++ [fs], acc.bws ++ [bs]⟩

/-- `Formants.from_praat_text` (src/get_formants.py lines 134-214).
`lines` is the list of lines of the file; the source strips each line on
read.  Note the second header check interpolates `self.f[0]` — not
`self.f[1]` — into its message, exactly as the source does (line 145). -/
def from_praat_text (lines : List String) : Except PErr FmtData :=
  let f := lines.map pyStrip
  match pyGet f 0 with
  | .error e => .error e
  | .ok l0 =>
    if l0 = "File type = \"ooTextFile\"" then
      match pyGet f 1 with
      | .error e => .error e
      | .ok l1 =>
        if l1 = "Object class = \"Formant 2\"" then
          match scanScalars f with
          | .error e => .error e
          | .ok (xm, xM, nxq, dxq, x1q, mnq, i6) =>
            let iStart : Nat :=
              match findFrom f (matchArrBracket "frames") i6 with
              | some (k, _) => k
              | none => i6
            match frameLoop f dxq x1q (qTrunc mnq) (f.length + 1) iStart
                ⟨[], [], [], [], []⟩ with
            | .error e => .error e
            | .ok acc =>
              .ok ⟨xm, xM, qTrunc nxq, dxq, x1q, qTrunc mnq,
                   acc.t, acc.fidx, acc.intens, acc.fms, acc.bws⟩
        else
          .error (.valueError ("The file isn" ++ apos ++
            "t a valid Praat Formant 2 file (header: " ++ apos ++ l0 ++ apos ++ ")"))
    else
      .error (.valueError ("The file isn" ++ apos ++
        "t a valid Praat Text file (header: " ++ apos ++ l0 ++ apos ++ ")"))

/-- `Formants.to_matlab_literal` (lines 239-250): raises `ValueError` when
no parse has populated `self.data`; otherwise renders the data as a Matlab
`struct(...)` literal.  No claim inspects the rendered text, so the
renderer maps each field through `toString` of its exact rational value
(CPython would print its float `str()` form) in the dict insertion order
of the source. -/
def to_matlab_literal (data : Option FmtData) : Except PErr String :=
  match data with
  | none => .error (.valueError ("Trying to export an empty formant data set. " ++
      "Call an import method first (e.g. from_praat_text)."))
  | some d =>
    let q2s : ℚ → String := fun q => toString q
    let o2s : Option ℚ → String := fun x => match x with
      | none => "nan"
      | some q => q2s q
    let row : List (Option ℚ) → String := fun xs =>
      String.intercalate "," (xs.map o2s)
    let tab : List (List (Option ℚ)) → String := fun xss =>
      "[" ++ String.intercalate ";" (xss.map row) ++ "]"
    let vec : List ℚ → String := fun xs =>
      "[" ++ String.intercalate "," (xs.map q2s) ++ "]"
    .ok ("struct(" ++ String.intercalate ","
      [apos ++ "xmin" ++ apos, q2s d.xmin,
       apos ++ "xmax" ++ apos, q2s d.xmax,
       apos ++ "nx" ++ apos, toString d.nx,
       apos ++ "dx" ++ apos, q2s d.dx,
       apos ++ "x1" ++ apos, q2s d.x1,
       apos ++ "maxnFormants" ++ apos, toString d.maxn,
       apos ++ "t" ++ apos, vec d.t,
       apos ++ "formants" ++ apos, tab d.formants,
       apos ++ "bandwidths" ++ apos, tab d.bandwidths,
       apos ++ "intensity" ++ apos, vec d.intensity] ++ ")")

/-- `Formants.to_matlab_mat` (lines 269-272): performs NO emptiness check —
it forwards `self.data` (even `None`) straight to the external writer
`scipy.io.savemat(mat_filename, self.data, do_compression=True)`.  The
model returns the file name and payload handed to that external
collaborator. -/
def to_matlab_mat (data : Option FmtData) (mat_filename : String) :
    Except PErr (String × Option FmtData) :=
  .ok (mat_filename, data)

/-! ## Concrete inputs used by the theorems -/

/-- The common header of the Formant-report fixtures:
`nx = 5`, `dx = 0.5`, `x1 = 0.1`, `maxnFormants = 5`. -/
def fmtHdr : List String :=
  ["File type = \"ooTextFile\"", "Object class = \"Formant 2\"",
   "xmin = 0", "xmax = 1", "nx = 5", "dx = 0.5", "x1 = 0.1",
   "maxnFormants = 5", "frames []:"]

/-- A report whose frame markers carry out-of-order indices:
`frames [2]:` physically before `frames [1]:`. -/
def c1fix : List String :=
  fmtHdr ++ ["frames [2]:", "intensity = 1.0", "formant []:",
             "frames [1]:", "intensity = 2.0", "formant []:"]

/-- The parse of `c1fix`: the first appended frame gets
`t = x1 + (2-1)*dx = 0.6`, the second `t = x1 + (1-1)*dx = 0.1`. -/
def c1val : FmtData :=
  ⟨0, 1, 5, 1/2, 1/10, 5, [3/5, 1/10], [1, 0], [1, 2],
   [[none, none, none, none, none], [none, none, none, none, none]],
   [[none, none, none, none, none], [none, none, none, none, none]]⟩

/-- One frame whose only formant sub-record is `formant [3]:`. -/
def c5fix : List String :=
  fmtHdr ++ ["frames [1]:", "intensity = 0.5", "formant []:",
             "formant [3]:", "frequency = 500", "bandwidth = 50"]

def c5val : FmtData :=
  ⟨0, 1, 5, 1/2, 1/10, 5, [1/10], [0], [1/2],
   [[none, none, some 500, none, none]],
   [[none, none, some 50, none, none]]⟩

/-- Two complete frame records under a declared `nx = 5`. -/
def c8fixA : List String :=
  fmtHdr ++ ["frames [1]:", "intensity = 1.0", "formant []:",
             "formant [1]:", "frequency = 500", "bandwidth = 50",
             "frames [2]:", "intensity = 2.0", "formant []:"]

/-- The same two frame records under a declared `nx = 2`. -/
def c8fixB : List String :=
  ["File type = \"ooTextFile\"", "Object class = \"Formant 2\"",
   "xmin = 0", "xmax = 1", "nx = 2", "dx = 0.5", "x1 = 0.1",
   "maxnFormants = 5", "frames []:"] ++
  ["frames [1]:", "intensity = 1.0", "formant []:",
   "formant [1]:", "frequency = 500", "bandwidth = 50",
   "frames [2]:", "intensity = 2.0", "formant []:"]

def c8valA : FmtData :=
  ⟨0, 1, 5, 1/2, 1/10, 5, [1/10, 3/5], [0, 1], [1, 2],
   [[some 500, none, none, none, none], [none, none, none, none, none]],
   [[some 50, none, none, none, none], [none, none, none, none, none]]⟩

def c8valB : FmtData :=
  ⟨0, 1, 2, 1/2, 1/10, 5, [1/10, 3/5], [0, 1], [1, 2],
   [[some 500, none, none, none, none], [none, none, none, none, none]],
   [[some 50, none, none, none, none], [none, none, none, none, none]]⟩

/-- A report truncated right after a frame marker: its frame section ends
early (no complete frame record, against a declared `nx = 5`). -/
def c8trunc : List String := fmtHdr ++ ["frames [1]:"]

/-- A formant sub-record indexed past `maxnFormants = 5`. -/
def c9big : List String :=
  fmtHdr ++ ["frames [1]:", "intensity = 0.5", "formant []:",
             "formant [7]:", "frequency = 500", "bandwidth = 50"]

/-- A formant sub-record indexed `0`: slot `0 - 1 = -1` wraps, in Python,
to the LAST array slot. -/
def c9zero : List String :=
  fmtHdr ++ ["frames [1]:", "intensity = 0.5", "formant []:",
             "formant [0]:", "frequency = 500", "bandwidth = 50"]

def c9zeroVal : FmtData :=
  ⟨0, 1, 5, 1/2, 1/10, 5, [1/10], [0], [1/2],
   [[none, none, none, none, some 500]],
   [[none, none, none, none, some 50]]⟩

/-- A valid first header line followed by a wrong second header line. -/
def c3bad : List String :=
  ["File type = \"ooTextFile\"", "BADHEADER", "xmin = 0"]

/-- The message the source raises on `c3bad`: it interpolates
`self.f[0]`, not the offending second line. -/
def c3msg : String :=
  "The file isn" ++ apos ++ "t a valid Praat Formant 2 file (header: " ++
    apos ++ "File type = \"ooTextFile\"" ++ apos ++ ")"

/-- Valid headers but the required scalar field `dx` is absent. -/
def c3miss : List String :=
  ["File type = \"ooTextFile\"", "Object class = \"Formant 2\"",
   "xmin = 0", "xmax = 1", "nx = 2"]

/-- The spec's own TextGrid fixture: one tier, one interval
`xmin=0.000000, xmax=1.250000, text="ah"`. -/
def c7fix : List String :=
  ["File type = \"ooTextFile\"", "Object class = \"TextGrid\"",
   "size = 1", "    item [1]:", "        intervals [1]:",
   "            xmin = 0.000000", "            xmax = 1.250000",
   "            text = \"ah\""]

/-- The same fixture with a doubly quoted label `""ah""`. -/
def c7quote : List String :=
  ["File type = \"ooTextFile\"", "Object class = \"TextGrid\"",
   "size = 1", "    item [1]:", "        intervals [1]:",
   "            xmin = 0.000000", "            xmax = 1.250000",
   "            text = \"\"ah\"\""]

/-- One tier whose interval blocks carry indices 5, 2, 2 in that physical
order. -/
def c2order : List String :=
  ["Object class = \"TextGrid\"", "size = 1", "    item [1]:",
   " intervals [5]:", "xmin = 1.0", "xmax = 2.0", "text = \"a\"",
   " intervals [2]:", "xmin = 3.0", "xmax = 4.0", "text = \"b\"",
   " intervals [2]:", "xmin = 5.0", "xmax = 6.0", "text = \"c\""]

/-- A TextGrid declaring zero tiers. -/
def c2zero : List String := ["Object class = \"TextGrid\"", "size = 0"]

/-- A TextGrid declaring `size = -1`: not a non-negative integer, yet
`int('-1')` parses and `range(-1)` is empty, so the parse succeeds. -/
def c4neg : List String := ["Object class = \"TextGrid\"", "size = -1"]

/-- An interval header 2 lines from the end of input whose following
field line does not parse as a float. -/
def c10junk : List String :=
  ["Object class = \"TextGrid\"", "size = 1", "    item [1]:",
   " intervals [1]:", "junk"]

/-- Tier 1 ends 3 lines after its last interval header, so the header's
`text` field is read from the `item [2]:` marker line of the next tier. -/
def c10cross : List String :=
  ["Object class = \"TextGrid\"", "size = 2", "    item [1]:",
   " intervals [1]:", "xmin = 0.5", "xmax = 1.5", "    item [2]:", "x"]

/-! ## Theorems

The four sealed `Rat` primitives are made semireducible so that the
concrete parses above evaluate inside `decide`/`rfl` proofs. -/

attribute [local semireducible] Rat.add Rat.mul Rat.inv Rat.sub

/-- A successful `findFromA` scan of the suffix `rest` numbered from `i`
found a line of `rest` (at offset `k - i`) that the matcher accepts. -/
theorem findFromA_some {α : Type} (p : String → Option α) :
    ∀ (rest : List String) (i k : Nat) (a : α),
      findFromA p rest i = some (k, a) →
      i ≤ k ∧ ∃ hk : k - i < rest.length, p (rest.get ⟨k - i, hk⟩) = some a := by
  intro rest
  induction rest with
  | nil => intro i k a h; exact absurd h (by simp [findFromA])
  | cons l tl ih =>
      intro i k a h
      rw [findFromA] at h
      cases hp : p l with
      | some b =>
          rw [hp] at h
          injection h with h1
          injection h1 with h2 h3
          subst h2; subst h3
          exact ⟨Nat.le_refl _, by simpa using hp⟩
      | none =>
          rw [hp] at h
          obtain ⟨hik, hk, hpk⟩ := ih (i + 1) k a h
          refine ⟨Nat.le_of_succ_le hik, ?_⟩
          have hki : k - i = (k - (i + 1)) + 1 := by omega
          have hlen : k - i < (l :: tl).length := by
            simp only [List.length_cons]; omega
          refine ⟨hlen, ?_⟩
          have hfin : (⟨k - i, hlen⟩ : Fin (l :: tl).length) =
              ⟨k - (i + 1) + 1, by simp only [List.length_cons]; omega⟩ :=
            Fin.ext (show k - i = k - (i + 1) + 1 by omega)
          rw [hfin]
          exact hpk

/-- A successful `findFrom` search found a line of `f` at an index `≥ i`
that the matcher accepts. -/
theorem findFrom_some {α : Type} (f : List String) (p : String → Option α)
    (i k : Nat) (a : α) (h : findFrom f p i = some (k, a)) :
    i ≤ k ∧ ∃ hk : k < f.length, p (f.get ⟨k, hk⟩) = some a := by
  obtain ⟨hik, hk, hpk⟩ := findFromA_some p (f.drop i) i k a h
  have hlen : k < f.length := by
    have := f.length_drop i
    omega
  refine ⟨hik, hlen, ?_⟩
  have hget : (f.drop i).get ⟨k - i, hk⟩ = f.get ⟨k, hlen⟩ := by
    have h1 : (f.drop i).get ⟨k - i, hk⟩ = (f.drop i)[k - i] := rfl
    rw [h1, List.getElem_drop]
    congr 1
    omega
  rw [hget] at hpk
  exact hpk

/-- `pyGet` succeeds exactly on in-range indices, returning that entry. -/
theorem pyGet_ok_iff {α : Type} (l : List α) (i : Nat) (a : α) :
    pyGet l i = .ok a ↔ ∃ h : i < l.length, l.get ⟨i, h⟩ = a := by
  unfold pyGet
  split
  · rename_i h
    constructor
    · intro he; injection he with he; exact ⟨h, he⟩
    · rintro ⟨h2, rfl⟩; rfl
  · rename_i h
    constructor
    · intro he; exact absurd he (by simp)
    · rintro ⟨h2, _⟩; exact absurd h2 h

/-- A successful Python list write is `List.set` at the wrapped index. -/
theorem pySet_ok {α : Type} {l : List α} {i : ℤ} {v : α} {l2 : List α}
    (h : pySet l i v = .ok l2) :
    l2 = l.set (if i < 0 then (i + l.length).toNat else i.toNat) v := by
  unfold pySet at h
  split at h
  · exact absurd h (by simp)
  · split at h
    · rename_i hneg
      injection h with h; subst h; rw [if_pos hneg]
    · rename_i hneg
      injection h with h; subst h; rw [if_neg hneg]

/-- A successful item search pass returns one position per requested tier,
and the line at the position for tier `m` (counting from `j`) starts with
the corresponding `    item [<index>]:` marker. -/
theorem itemLoop_ok (content : List String) :
    ∀ k j i idxs, itemLoop content k j i = .ok idxs →
      idxs.length = k ∧
      ∀ m (hm : m < idxs.length), ∃ hk : idxs.get ⟨m, hm⟩ < content.length,
        pyStartsWith (content.get ⟨idxs.get ⟨m, hm⟩, hk⟩)
          ("    item [" ++ toString (j + m + 1) ++ "]:") = true := by
  intro k
  induction k with
  | zero =>
      intro j i idxs h
      simp only [itemLoop] at h
      injection h with h; subst h
      exact ⟨rfl, fun m hm => absurd hm (by simp)⟩
  | succ n ih =>
      intro j i idxs h
      simp only [itemLoop] at h
      split at h
      · exact absurd h (by simp)
      · rename_i pa pos snd hf
        split at h
        · exact absurd h (by simp)
        · rename_i rest hrec
          injection h with h; subst h
          obtain ⟨hlen, hprop⟩ := ih (j + 1) pos rest hrec
          constructor
          · simp [hlen]
          · intro m hm
            cases m with
            | zero =>
                obtain ⟨_, hk, hp⟩ := findFrom_some content _ (i + 1) pos snd hf
                refine ⟨hk, ?_⟩
                split at hp
                · rename_i hsw
                  simpa [Nat.add_zero] using hsw
                · exact absurd hp (by simp)
            | succ m2 =>
                have hm2 : m2 < rest.length := by
                  simp only [List.length_cons] at hm; omega
                obtain ⟨hk, hsw⟩ := hprop m2 hm2
                refine ⟨hk, ?_⟩
                have harith : j + 1 + m2 + 1 = j + (m2 + 1) + 1 := by omega
                rw [← harith]
                exact hsw

/-- `mkRanges` yields one range per found position. -/
theorem mkRanges_length : ∀ (idxs : List Nat) (len : Nat),
    (mkRanges idxs len).length = idxs.length := by
  intro idxs
  induction idxs with
  | nil => intro len; rfl
  | cons a tl ih => intro len; simp [mkRanges, ih]

/-- A successful tier loop yields one interval list per range. -/
theorem tiersLoop_length (content : List String) :
    ∀ rs ts, tiersLoop content rs = .ok ts → ts.length = rs.length := by
  intro rs
  induction rs with
  | nil =>
      intro ts h
      simp only [tiersLoop] at h
      injection h with h; subst h; rfl
  | cons r tl ih =>
      intro ts h
      obtain ⟨a, b⟩ := r
      simp only [tiersLoop] at h
      cases h1 : scanTier content b a [] with
      | error e => rw [h1] at h; exact absurd h (by simp)
      | ok t =>
          rw [h1] at h
          cases h2 : tiersLoop content tl with
          | error e => rw [h2] at h; exact absurd h (by simp)
          | ok ts2 =>
              rw [h2] at h
              injection h with h; subst h
              simp [ih ts2 h2]

/-- What a successful `tgParse` run guarantees about the source lines: the
first `Object class` line was found and matches the TextGrid literal, the
first `size = ` line was found and its value parsed as a (possibly
negative) integer, the item loop located every marker, and the tier loop
produced the returned interval lists. -/
theorem tgParse_ok_struct (content : List String) (r : TGData)
    (h : tgParse content = .ok r) :
    ∃ iH lH iS lS idxs ts,
      findLineSW content "Object class" 0 = some (iH, lH) ∧
      pyStrip lH = "Object class = \"TextGrid\"" ∧
      findLineSW content "size = " 0 = some (iS, lS) ∧
      pyInt (pyReplace (pyStrip lS) "size = " "") = some r.size ∧
      itemLoop content r.size.toNat 0 iS = .ok idxs ∧
      tiersLoop content (mkRanges idxs content.length) = .ok ts ∧
      r.intervals = ts := by
  unfold tgParse at h
  split at h
  · exact absurd h (by simp)
  · rename_i pH iH lH h0
    split at h
    · rename_i hHdr
      split at h
      · exact absurd h (by simp)
      · rename_i pS iS lS h1
        split at h
        · exact absurd h (by simp)
        · rename_i size h2
          split at h
          · exact absurd h (by simp)
          · rename_i idxs h3
            split at h
            · exact absurd h (by simp)
            · rename_i ts h4
              injection h with h
              subst h
              exact ⟨iH, lH, iS, lS, idxs, ts, h0, hHdr, h1, h2, h3, h4, rfl⟩
    · exact absurd h (by simp)

/-- Slot `k` of the frequency array is the missing sentinel exactly when
slot `k` of the bandwidth array is. -/
def PairedNone (fs bs : List (Option ℚ)) : Prop :=
  ∀ k (h1 : k < fs.length) (h2 : k < bs.length), (fs[k] = none ↔ bs[k] = none)

/-- The per-frame array invariant: both arrays have width `maxn.toNat`
and their missing slots coincide. -/
def GoodFrame (maxn : ℤ) (fs bs : List (Option ℚ)) : Prop :=
  fs.length = maxn.toNat ∧ bs.length = maxn.toNat ∧ PairedNone fs bs

/-- Writing `some` values at the same Python index into two arrays of the
same length preserves the paired-sentinel invariant. -/
theorem pySet_pair {fs bs : List (Option ℚ)} {i : ℤ} {v w : ℚ}
    {fs2 bs2 : List (Option ℚ)} (hlen : fs.length = bs.length)
    (hf : pySet fs i (some v) = .ok fs2) (hb : pySet bs i (some w) = .ok bs2)
    (hp : PairedNone fs bs) : PairedNone fs2 bs2 := by
  have e1 := pySet_ok hf
  have e2 := pySet_ok hb
  rw [hlen] at e1
  subst e1; subst e2
  intro k h1 h2
  by_cases hkj : (if i < 0 then (i + (bs.length : ℤ)).toNat else i.toNat) = k
  · subst hkj
    simp [List.getElem_set_self]
  · simp only [List.getElem_set_ne hkj]
    have h1b : k < fs.length := by simpa using h1
    have h2b : k < bs.length := by simpa using h2
    exact hp k h1b h2b

/-- The inner formant loop preserves both array lengths and the
paired-sentinel invariant. -/
theorem formantLoop_inv (f : List String) (nf : Nat) :
    ∀ fuel i fs bs out, formantLoop f nf fuel i fs bs = .ok out →
      out.1.length = fs.length ∧ out.2.1.length = bs.length ∧
      (fs.length = bs.length → PairedNone fs bs → PairedNone out.1 out.2.1) := by
  intro fuel
  induction fuel with
  | zero =>
      intro i fs bs out h
      exact absurd h (by simp [formantLoop])
  | succ n ih =>
      intro i fs bs out h
      simp only [formantLoop] at h
      split at h
      · injection h with h; subst h
        exact ⟨rfl, rfl, fun _ hp => hp⟩
      · rename_i pa iFo idxN hfind
        split at h
        · injection h with h; subst h
          exact ⟨rfl, rfl, fun _ hp => hp⟩
        · split at h
          · exact absurd h (by simp)
          · rename_i pF iFr frq hfreq
            split at h
            · exact absurd h (by simp)
            · rename_i fs2 hset1
              split at h
              · exact absurd h (by simp)
              · rename_i pB iBw bw hbw
                split at h
                · exact absurd h (by simp)
                · rename_i bs2 hset2
                  obtain ⟨hl1, hl2, hpair⟩ := ih iBw fs2 bs2 out h
                  have hfs2 : fs2.length = fs.length := by
                    rw [pySet_ok hset1, List.length_set]
                  have hbs2 : bs2.length = bs.length := by
                    rw [pySet_ok hset2, List.length_set]
                  refine ⟨by rw [hl1, hfs2], by rw [hl2, hbs2], ?_⟩
                  intro hlen hp
                  exact hpair (by rw [hfs2, hbs2, hlen])
                    (pySet_pair hlen hset1 hset2 hp)

/-- The running invariant of the outer frame loop: timestamps are
`x1 + frame*dx` of the captured frame indices, the four per-frame lists
stay aligned, and every appended frame satisfies `GoodFrame`. -/
def AccInv (dxq x1q : ℚ) (maxn : ℤ) (a : FrameAcc) : Prop :=
  a.t = a.fidx.map (fun k : ℤ => x1q + (k : ℚ) * dxq) ∧
  a.intens.length = a.fidx.length ∧
  a.fms.length = a.fidx.length ∧
  a.bws.length = a.fidx.length ∧
  List.Forall₂ (GoodFrame maxn) a.fms a.bws

/-- The outer frame loop preserves `AccInv`. -/
theorem frameLoop_inv (f : List String) (dxq x1q : ℚ) (maxn : ℤ) :
    ∀ fuel i acc res, frameLoop f dxq x1q maxn fuel i acc = .ok res →
      AccInv dxq x1q maxn acc → AccInv dxq x1q maxn res := by
  intro fuel
  induction fuel with
  | zero =>
      intro i acc res h _
      exact absurd h (by simp [frameLoop])
  | succ n ih =>
      intro i acc res h hinv
      simp only [frameLoop] at h
      split at h
      · injection h with h; subst h; exact hinv
      · rename_i pa iF idxN hfr
        split at h
        · exact absurd h (by simp)
        · rename_i pI iI inten hint
          split at h
          · exact absurd h (by simp)
          · rename_i out fs bs iEnd hfl
            refine ih iEnd _ res h ?_
            obtain ⟨ht, hi, hf2, hb2, hall⟩ := hinv
            have hgood : GoodFrame maxn fs bs := by
              obtain ⟨hl1, hl2, hpair⟩ :=
                formantLoop_inv f _ (f.length + 1) _ _ _ (fs, bs, iEnd) hfl
              refine ⟨by simpa using hl1, by simpa using hl2, ?_⟩
              refine hpair (by simp) ?_
              intro k h1 h2
              simp [List.getElem_replicate]
            refine ⟨?_, ?_, ?_, ?_, ?_⟩
            · simp only [List.map_append, ← ht, List.map_cons, List.map_nil]
            · simp [List.length_append, hi]
            · simp [List.length_append, hf2]
            · simp [List.length_append, hb2]
            · exact List.rel_append hall
                (List.forall₂_cons.mpr ⟨hgood, List.Forall₂.nil⟩)

/-- What a successful `from_praat_text` run guarantees: its per-frame
lists are the output of the frame loop started on empty accumulators,
with the scalars the run itself returned. -/
theorem fmt_ok_struct (lines : List String) (r : FmtData)
    (h : from_praat_text lines = .ok r) :
    ∃ iStart acc,
      frameLoop (lines.map pyStrip) r.dx r.x1 r.maxn
        ((lines.map pyStrip).length + 1) iStart ⟨[], [], [], [], []⟩ = .ok acc ∧
      r.t = acc.t ∧ r.frameIdx = acc.fidx ∧ r.intensity = acc.intens ∧
      r.formants = acc.fms ∧ r.bandwidths = acc.bws := by
  simp only [from_praat_text] at h
  split at h
  · exact absurd h (by simp)
  · rename_i l0 h0
    split at h
    · split at h
      · exact absurd h (by simp)
      · rename_i l1 h1
        split at h
        · split at h
          · exact absurd h (by simp)
          · rename_i tup xm xM nxq dxq x1q mnq i6 hsc
            split at h
            · exact absurd h (by simp)
            · rename_i acc hfl
              injection h with h
              subst h
              exact ⟨_, acc, hfl, rfl, rfl, rfl, rfl, rfl⟩
        · exact absurd h (by simp)
    · exact absurd h (by simp)

/-- Every left element of a `Forall₂` has a right partner. -/
theorem forall2_left {α β : Type} {R : α → β → Prop} :
    ∀ {l1 : List α} {l2 : List β}, List.Forall₂ R l1 l2 →
      ∀ a ∈ l1, ∃ b, R a b := by
  intro l1
  induction l1 with
  | nil => intro l2 _ a ha; exact absurd ha (by simp)
  | cons x tl ih =>
      intro l2 hf a ha
      cases hf with
      | cons hx htl =>
          rcases List.mem_cons.mp ha with rfl | hmem
          · exact ⟨_, hx⟩
          · exact ih htl a hmem

/-- `pyGet` from an optional-lookup fact. -/
theorem pyGet_of_getElem {α : Type} {l : List α} {i : Nat} {a : α}
    (h : l[i]? = some a) : pyGet l i = .ok a := by
  rw [pyGet_ok_iff]
  obtain ⟨hlt, hv⟩ := List.getElem?_eq_some_iff.mp h
  exact ⟨hlt, hv⟩

/-- In range, `pyGet` returns the `getD` default-read of the list. -/
theorem pyGet_getD (l : List String) (i : Nat) (h : i < l.length) :
    pyGet l i = .ok (l.getD i "") := by
  unfold pyGet
  rw [dif_pos h]
  congr 1
  rw [List.getD_eq_getElem l "" h]
  rfl

/-- The interval scan, on reaching a header line that matches
`reIntervals` with fewer than three lines left in the file (and whose
in-range field lines do parse as floats), reads past the end of the line
buffer: an `IndexError`. -/
theorem scanTier_oob (content : List String) (i2 i1 : Nat)
    (acc : List TGInterval) (l : String)
    (hlt : i1 < i2) (hget : pyGet content i1 = .ok l)
    (hm : matchIntervals l = true) (hend : content.length ≤ i1 + 3)
    (hx1 : i1 + 1 < content.length →
      (pyFloat (pyReplace (pyStrip (content.getD (i1 + 1) "")) "xmin = " "")).isSome = true)
    (hx2 : i1 + 2 < content.length →
      (pyFloat (pyReplace (pyStrip (content.getD (i1 + 2) "")) "xmax = " "")).isSome = true) :
    scanTier content i2 i1 acc = .error .indexError := by
  unfold scanTier
  obtain ⟨d, hd⟩ : ∃ d, i2 - i1 = d + 1 := ⟨i2 - i1 - 1, by omega⟩
  rw [hd]
  simp only [scanTierA, if_pos hlt, hget, hm, if_true]
  by_cases hb1 : i1 + 1 < content.length
  · rw [pyGet_getD content (i1 + 1) hb1]
    dsimp only
    obtain ⟨xm, hxm⟩ := Option.isSome_iff_exists.mp (hx1 hb1)
    rw [hxm]
    dsimp only
    by_cases hb2 : i1 + 2 < content.length
    · rw [pyGet_getD content (i1 + 2) hb2]
      dsimp only
      obtain ⟨xM, hxM⟩ := Option.isSome_iff_exists.mp (hx2 hb2)
      rw [hxM]
      dsimp only
      have hb3 : ¬ i1 + 3 < content.length := by omega
      rw [show pyGet content (i1 + 3) = .error .indexError from by
        unfold pyGet; rw [dif_neg hb3]]
    · rw [show pyGet content (i1 + 2) = .error .indexError from by
        unfold pyGet; rw [dif_neg hb2]]
  · rw [show pyGet content (i1 + 1) = .error .indexError from by
      unfold pyGet; rw [dif_neg hb1]]

/-! ## Claim theorems -/

/-- C1 (amended): in every successfully parsed formant report the
timestamp of each appended frame is `x1 + frame*dx` where `frame` is the
index CAPTURED from that frame's `frames [<idx>]:` marker minus one — not
the frame's position in scan order — and the per-frame lists stay aligned
with the markers in scan order. -/
theorem C1_time_uses_captured_index (lines : List String) (r : FmtData)
    (h : from_praat_text lines = .ok r) :
    r.t = r.frameIdx.map (fun k : ℤ => r.x1 + (k : ℚ) * r.dx) ∧
    r.intensity.length = r.frameIdx.length ∧
    r.formants.length = r.frameIdx.length ∧
    r.bandwidths.length = r.frameIdx.length := by
  obtain ⟨iS, acc, hfl, ht, hfi, hin, hfm, hbw⟩ := fmt_ok_struct lines r h
  have hinv := frameLoop_inv (lines.map pyStrip) r.dx r.x1 r.maxn _ iS _ acc hfl
    ⟨rfl, rfl, rfl, rfl, List.Forall₂.nil⟩
  rw [ht, hfi, hin, hfm, hbw]
  exact ⟨hinv.1, hinv.2.1, hinv.2.2.1, hinv.2.2.2.1⟩

/-- C1 witness: the amended statement at the out-of-order fixture. -/
theorem C1_time_uses_captured_index_witness :
    c1val.t = c1val.frameIdx.map (fun k : ℤ => c1val.x1 + (k : ℚ) * c1val.dx) :=
  (C1_time_uses_captured_index c1fix c1val rfl).1

/-- C1 counterexample: on `c1fix` (markers `frames [2]:` then
`frames [1]:` in that physical order) the first appended frame's
timestamp is `0.6 = x1 + 1*dx`, not `x1 + 0*dx = 0.1` as the claim (scan
order `j = 0`) requires. -/
theorem C1_scan_order_counterexample :
    from_praat_text c1fix = .ok c1val ∧
    c1val.t = [3/5, 1/10] ∧ c1val.x1 = 1/10 ∧ c1val.dx = 1/2 ∧
    (3 : ℚ)/5 ≠ 1/10 + (0 : ℚ) * (1/2) :=
  ⟨rfl, rfl, rfl, rfl, by decide⟩

/-- C2: every successful TextGrid parse returns exactly the declared
number of tiers (for the dialect's non-negative tier counts); intervals
are appended in physical order regardless of the numeric indices in
`intervals [n]:` (fixture with indices 5, 2, 2 in that order); and
`size = 0` yields an empty tier sequence. -/
theorem C2_tier_count_and_order (content : List String) (r : TGData)
    (h : tgParse content = .ok r) (hs : 0 ≤ r.size) :
    (r.intervals.length : ℤ) = r.size ∧
    tgParse c2order = .ok ⟨1, [[⟨1, 2, "a"⟩, ⟨3, 4, "b"⟩, ⟨5, 6, "c"⟩]]⟩ ∧
    tgParse c2zero = .ok ⟨0, []⟩ := by
  obtain ⟨iH, lH, iS, lS, idxs, ts, _, _, _, _, h3, h4, hts⟩ :=
    tgParse_ok_struct content r h
  have hlen : r.intervals.length = r.size.toNat := by
    rw [hts, tiersLoop_length content _ _ h4, mkRanges_length,
      (itemLoop_ok content _ _ _ _ h3).1]
  refine ⟨?_, rfl, rfl⟩
  rw [hlen]
  exact Int.toNat_of_nonneg hs

/-- C2 witness: the count statement at the order fixture. -/
theorem C2_tier_count_and_order_witness :
    (([[⟨1, 2, "a"⟩, ⟨3, 4, "b"⟩, ⟨5, 6, "c"⟩]] :
        List (List TGInterval)).length : ℤ) = 1 :=
  (C2_tier_count_and_order c2order
    ⟨1, [[⟨1, 2, "a"⟩, ⟨3, 4, "b"⟩, ⟨5, 6, "c"⟩]]⟩ rfl (by decide)).1

/-- C3 (amended): a wrong first header line raises `ValueError` with a
message naming that line; a wrong second header line raises `ValueError`
whose message ALSO interpolates line 0 (the source formats `self.f[0]`
into it, line 145); and a required scalar-field search that runs off the
end of the input dies with `AttributeError` (from `None.group(1)`), not a
named FormatError. -/
theorem C3_header_failures :
    (∀ lines l0, (lines.map pyStrip)[0]? = some l0 →
       l0 ≠ "File type = \"ooTextFile\"" →
       from_praat_text lines = .error (.valueError ("The file isn" ++ apos ++
         "t a valid Praat Text file (header: " ++ apos ++ l0 ++ apos ++ ")"))) ∧
    (∀ lines l0 l1, (lines.map pyStrip)[0]? = some l0 →
       (lines.map pyStrip)[1]? = some l1 →
       l0 = "File type = \"ooTextFile\"" →
       l1 ≠ "Object class = \"Formant 2\"" →
       from_praat_text lines = .error (.valueError ("The file isn" ++ apos ++
         "t a valid Praat Formant 2 file (header: " ++ apos ++ l0 ++ apos ++ ")"))) ∧
    from_praat_text c3miss = .error .attributeError := by
  refine ⟨?_, ?_, rfl⟩
  · intro lines l0 h0 hne
    simp only [from_praat_text]
    rw [pyGet_of_getElem h0]
    simp [hne]
  · intro lines l0 l1 h0 h1 he hne
    simp only [from_praat_text]
    rw [pyGet_of_getElem h0, pyGet_of_getElem h1]
    subst he
    simp [hne]

/-- C3 witness: the second-header failure at the concrete bad input. -/
theorem C3_header_failures_witness :
    from_praat_text c3bad = .error (.valueError c3msg) :=
  C3_header_failures.2.1 c3bad "File type = \"ooTextFile\"" "BADHEADER"
    rfl rfl rfl (by decide)

/-- C3 counterexample: on `c3bad` the offending line is line 1,
`BADHEADER`, yet the raised message does not contain it — it names line
0's content instead. -/
theorem C3_message_counterexample :
    from_praat_text c3bad = .error (.valueError c3msg) ∧
    (c3bad.map pyStrip)[1]? = some "BADHEADER" ∧
    containsSub "BADHEADER" c3msg = false ∧
    containsSub "File type = \"ooTextFile\"" c3msg = true :=
  ⟨rfl, rfl, by decide, by decide⟩

/-- C4 (amended): a successful TextGrid parse guarantees the first
`Object class` line exists and equals the TextGrid literal after
stripping, the first `size = ` line exists and its stripped remainder
parses as a Python integer (possibly NEGATIVE — negative counts are
accepted and yield an empty tier sequence, see the counterexample), and
one `    item [m+1]:` marker line was located for every tier. -/
theorem C4_success_structure (content : List String) (r : TGData)
    (h : tgParse content = .ok r) :
    (∃ iH lH, findLineSW content "Object class" 0 = some (iH, lH) ∧
       pyStrip lH = "Object class = \"TextGrid\"") ∧
    (∃ iS lS, findLineSW content "size = " 0 = some (iS, lS) ∧
       pyInt (pyReplace (pyStrip lS) "size = " "") = some r.size) ∧
    (∃ idxs : List Nat, idxs.length = r.size.toNat ∧
       ∀ m (hm : m < idxs.length), ∃ hk : idxs.get ⟨m, hm⟩ < content.length,
         pyStartsWith (content.get ⟨idxs.get ⟨m, hm⟩, hk⟩)
           ("    item [" ++ toString (m + 1) ++ "]:") = true) := by
  obtain ⟨iH, lH, iS, lS, idxs, ts, h0, hh, h1, h2, h3, h4, hts⟩ :=
    tgParse_ok_struct content r h
  obtain ⟨hlen, hmark⟩ := itemLoop_ok content _ _ _ _ h3
  refine ⟨⟨iH, lH, h0, hh⟩, ⟨iS, lS, h1, h2⟩, idxs, hlen, ?_⟩
  intro m hm
  obtain ⟨hk, hsw⟩ := hmark m hm
  refine ⟨hk, ?_⟩
  simpa [Nat.zero_add] using hsw

/-- C4 witness: the size-line conjunct at the spec's own fixture. -/
theorem C4_success_structure_witness :
    ∃ iS lS, findLineSW c7fix "size = " 0 = some (iS, lS) ∧
      pyInt (pyReplace (pyStrip lS) "size = " "") = some (1 : ℤ) :=
  (C4_success_structure c7fix ⟨1, [[⟨0, 5/4, "ah"⟩]]⟩ (by rfl)).2.1

/-- C4 counterexample: `size = -1` is not a non-negative integer, yet the
parse succeeds (with an empty tier sequence) instead of failing. -/
theorem C4_negative_size_counterexample :
    tgParse c4neg = .ok ⟨-1, []⟩ ∧ (-1 : ℤ) < 0 :=
  ⟨rfl, by decide⟩

/-- C5: in every successfully parsed report, each frame's formant and
bandwidth arrays have width `maxnFormants` and their missing slots
coincide (paired sentinel); on the fixture whose only sub-record is
`formant [3]:`, slot 2 holds the parsed pair and the other four slots
hold the sentinel, which is distinct from the number zero. -/
theorem C5_paired_formant_slots (lines : List String) (r : FmtData)
    (h : from_praat_text lines = .ok r) :
    List.Forall₂ (GoodFrame r.maxn) r.formants r.bandwidths ∧
    from_praat_text c5fix = .ok c5val ∧
    c5val.formants = [[none, none, some 500, none, none]] ∧
    c5val.bandwidths = [[none, none, some 50, none, none]] ∧
    (none : Option ℚ) ≠ some 0 := by
  obtain ⟨iS, acc, hfl, ht, hfi, hin, hfm, hbw⟩ := fmt_ok_struct lines r h
  have hinv := frameLoop_inv (lines.map pyStrip) r.dx r.x1 r.maxn _ iS _ acc hfl
    ⟨rfl, rfl, rfl, rfl, List.Forall₂.nil⟩
  rw [hfm, hbw]
  exact ⟨hinv.2.2.2.2, rfl, rfl, rfl, by decide⟩

/-- C5 witness: the paired-slot invariant at the single-record fixture. -/
theorem C5_paired_formant_slots_witness :
    List.Forall₂ (GoodFrame c5val.maxn) c5val.formants c5val.bandwidths :=
  (C5_paired_formant_slots c5fix c5val rfl).1

/-- C6 (amended): `to_matlab_literal` raises `ValueError` when called
before a parse has populated the data; `to_matlab_mat` performs NO such
check and forwards the unpopulated payload to the external writer. -/
theorem C6_export_guards :
    to_matlab_literal none = .error (.valueError
      ("Trying to export an empty formant data set. " ++
       "Call an import method first (e.g. from_praat_text).")) ∧
    (∀ (d : Option FmtData) (fn : String), to_matlab_mat d fn = .ok (fn, d)) :=
  ⟨rfl, fun _ _ => rfl⟩

/-- C6 counterexample: calling the MAT export on a fresh, unparsed
instance raises nothing — the `None` payload is forwarded. -/
theorem C6_mat_counterexample :
    to_matlab_mat none "out.mat" = .ok ("out.mat", none) := rfl

/-- C7 (amended): an interval record's three field lines are parsed by
stripping, removing the keyword text, and — for `text` — stripping ALL
leading and trailing quote characters (`strip('"')`), so a label whose
content begins or ends with quotes loses those inner quotes too; the
spec's fixture yields `{0.0, 1.25, "ah"}`. -/
theorem C7_interval_fields :
    tgParse c7fix = .ok ⟨1, [[⟨0, 5/4, "ah"⟩]]⟩ ∧
    tgParse c7quote = .ok ⟨1, [[⟨0, 5/4, "ah"⟩]]⟩ ∧
    stripQuotes "\"\"ah\"\"" = "ah" ∧
    pyReplace (pyStrip "            xmin = 0.000000") "xmin = " "" = "0.000000" :=
  ⟨rfl, rfl, by decide, by decide⟩

/-- C7 counterexample: the label `""ah""` comes back as `ah`, not as the
`"ah"` that stripping exactly one layer of quotes would leave. -/
theorem C7_quote_counterexample :
    tgParse c7quote = .ok ⟨1, [[⟨0, 5/4, "ah"⟩]]⟩ ∧ "ah" ≠ "\"ah\"" :=
  ⟨rfl, by decide⟩

/-- C8 (amended): the parser never compares the number of frames found
with the declared `nx`: the same two complete frame records parse
identically under `nx = 5` and `nx = 2`, returning the 2 frames found;
but a file truncated INSIDE a frame record still fails (with an
attribute error, not because of the count). -/
theorem C8_no_nx_crosscheck :
    from_praat_text c8fixA = .ok c8valA ∧ c8valA.nx = 5 ∧
    from_praat_text c8fixB = .ok c8valB ∧ c8valB.nx = 2 ∧
    c8valA.t = c8valB.t ∧ c8valA.frameIdx = c8valB.frameIdx ∧
    c8valA.intensity = c8valB.intensity ∧
    c8valA.formants = c8valB.formants ∧
    c8valA.bandwidths = c8valB.bandwidths ∧
    c8valA.formants.length = 2 :=
  ⟨rfl, rfl, rfl, rfl, rfl, rfl, rfl, rfl, rfl, rfl⟩

/-- C8 counterexample: a report whose frame section ends early (a frame
marker with nothing after it, against `nx = 5`) does NOT parse — the
intensity search runs off the end and the parse dies. -/
theorem C8_truncated_counterexample :
    from_praat_text c8trunc = .error .attributeError ∧
    matchFramesIdx "frames [1]:" = some 1 :=
  ⟨rfl, by decide⟩

/-- C9 (amended): a formant index whose slot `idx - 1` is at or past
`maxFormants` makes the array write raise `IndexError` (the parse
faults); index `0` maps to slot `-1`, which Python wraps to the LAST
array slot (both arrays, so the width and pairing are kept); on success
every frame's arrays keep width `maxFormants`. -/
theorem C9_index_bounds (lines : List String) (r : FmtData)
    (h : from_praat_text lines = .ok r) :
    (∀ fs ∈ r.formants, fs.length = r.maxn.toNat) ∧
    from_praat_text c9big = .error .indexError ∧
    from_praat_text c9zero = .ok c9zeroVal ∧
    c9zeroVal.formants = [[none, none, none, none, some 500]] ∧
    c9zeroVal.bandwidths = [[none, none, none, none, some 50]] := by
  obtain ⟨iS, acc, hfl, ht, hfi, hin, hfm, hbw⟩ := fmt_ok_struct lines r h
  have hinv := frameLoop_inv (lines.map pyStrip) r.dx r.x1 r.maxn _ iS _ acc hfl
    ⟨rfl, rfl, rfl, rfl, List.Forall₂.nil⟩
  rw [hfm]
  refine ⟨?_, rfl, rfl, rfl, rfl⟩
  intro fs hmem
  obtain ⟨bs2, hg⟩ := forall2_left hinv.2.2.2.2 fs hmem
  exact hg.1

/-- C9 witness: the width statement at the wrapped-index fixture. -/
theorem C9_index_bounds_witness :
    ([none, none, none, none, some (500 : ℚ)] : List (Option ℚ)).length =
      (5 : ℤ).toNat :=
  (C9_index_bounds c9zero c9zeroVal rfl).1
    [none, none, none, none, some (500 : ℚ)] (by decide)

/-- C9 counterexample: `formant [7]:` under `maxnFormants = 5` makes the
parse fault with `IndexError` — it is not clamped or ignored. -/
theorem C9_overflow_counterexample :
    from_praat_text c9big = .error .indexError := rfl

/-- C10 (amended): when the interval scan treats a `reIntervals`-matching
line as a record header with fewer than three lines left in the file, and
the field lines that are still in range parse as floats, it performs an
out-of-range line read (`IndexError`); a matching line can however be
consumed as a FIELD of an earlier record and never become a header (see
the counterexample), and the field reads are not bounded by the tier
range: a header near the tier's end bound reads its `text` from the next
tier's region (`c10cross`). -/
theorem C10_short_record :
    (∀ (content : List String) (i2 i1 : Nat) (acc : List TGInterval)
       (l : String), i1 < i2 → pyGet content i1 = .ok l →
       matchIntervals l = true → content.length ≤ i1 + 3 →
       (i1 + 1 < content.length →
         (pyFloat (pyReplace (pyStrip (content.getD (i1 + 1) ""))
           "xmin = " "")).isSome = true) →
       (i1 + 2 < content.length →
         (pyFloat (pyReplace (pyStrip (content.getD (i1 + 2) ""))
           "xmax = " "")).isSome = true) →
       scanTier content i2 i1 acc = .error .indexError) ∧
    tgParse c10cross = .ok ⟨2, [[⟨1/2, 3/2, "item [2]:"⟩], []]⟩ :=
  ⟨fun content i2 i1 acc l h1 h2 h3 h4 h5 h6 =>
     scanTier_oob content i2 i1 acc l h1 h2 h3 h4 h5 h6, rfl⟩

/-- C10 witness: the out-of-range read at a concrete three-line tier. -/
theorem C10_short_record_witness :
    scanTier [" intervals [1]:", "xmin = 1", "xmax = 2"] 3 0 [] =
      .error .indexError :=
  C10_short_record.1 [" intervals [1]:", "xmin = 1", "xmax = 2"] 3 0 []
    " intervals [1]:" (by decide) rfl (by decide) (by decide)
    (fun _ => by decide) (fun _ => by decide)

/-- C10 counterexample: in `c10junk` the pattern-matching line at index 3
sits in the tier's range with fewer than three lines remaining, yet the
parse performs no out-of-range access: it fails converting the in-range
line `junk` to a float (a `ValueError`, not an `IndexError`). -/
theorem C10_inrange_failure_counterexample :
    tgParse c10junk = .error (.valueError "could not convert string to float") ∧
    c10junk.length = 5 ∧
    matchIntervals " intervals [1]:" = true ∧
    c10junk[3]? = some " intervals [1]:" ∧
    PErr.valueError "could not convert string to float" ≠ PErr.indexError :=
  ⟨rfl, rfl, by decide, rfl, by decide⟩

end PyPraat
